import Mathlib

/-
Verification development for the sessions HTTP client library.

The Python source is shallowly embedded: pure fragments become Lean
functions, stateful fragments pass their state explicitly, and fallible
code returns Except.  Wall-clock times are modelled as integers (seconds,
or microseconds where noted); Python byte strings that the code treats as
UTF-8 text are modelled as Lean strings.
-/

/-- Python exception values surfaced by the embedded code paths. -/
inductive PyExc where
  | typeError (msg : String)
  | valueError (msg : String)
  | assertionError (msg : String)
  | nameError (msg : String)
  | attributeError (msg : String)
  | indexError (msg : String)
  | zlibError (msg : String)
  | timeoutException (msg : String)
  | timeoutError (msg : String)
  | clientError (msg : String)
  | exception (msg : String)
  deriving DecidableEq

/-- Association-list read standing for a Python dict lookup (dict keys are
unique; the first binding wins). -/
def alGet {α : Type} (m : List (String × α)) (k : String) : Option α :=
  match m with
  | [] => none
  | (k2, v) :: rest => if k2 = k then some v else alGet rest k

/-- Python dict assignment d[k] = v: replaces an existing binding in place,
otherwise appends at the end (insertion order preserved). -/
def alSet {α : Type} (m : List (String × α)) (k : String) (v : α) : List (String × α) :=
  match m with
  | [] => [(k, v)]
  | (k2, v2) :: rest => if k2 = k then (k2, v) :: rest else (k2, v2) :: alSet rest k v

/-- Python str(x) for an optional string: None renders as "None". -/
def pyStrOpt : Option String → String
  | none => "None"
  | some s => s

/- ------------------------------------------------------------------
C10: BaseSession.clear_cache (src/sessions/base.py 61-68)
------------------------------------------------------------------ -/

/-- Non-dunder attribute names of Python str objects.  The guard
hasattr("self", "_cache") in BaseSession.clear_cache performs attribute
lookup on the string literal "self", so it consults this set. -/
def strAttributeNames : List String :=
  ["capitalize", "casefold", "center", "count", "encode", "endswith",
   "expandtabs", "find", "format", "format_map", "index", "isalnum",
   "isalpha", "isascii", "isdecimal", "isdigit", "isidentifier", "islower",
   "isnumeric", "isprintable", "isspace", "istitle", "isupper", "join",
   "ljust", "lower", "lstrip", "maketrans", "partition", "removeprefix",
   "removesuffix", "replace", "rfind", "rindex", "rjust", "rpartition",
   "rsplit", "rstrip", "split", "splitlines", "startswith", "strip",
   "swapcase", "title", "translate", "upper", "zfill"]

/-- Python hasattr("self", name): attribute lookup on the str object "self". -/
def pyHasattrStrSelf (name : String) : Bool :=
  strAttributeNames.contains name

/-- Rate-limiter backend of a session. -/
inductive RlBackend where
  | memory
  | redis
  | sqlite
  deriving DecidableEq

/-- The state touched by BaseSession.clear_cache: the cache store, and the
rate limiter store together with presence of the _ratelimiter attribute.
On the redis backend both stores are key ranges of one shared database; on
memory they share one mapping; on sqlite they are separate tables. -/
structure SessionStores where
  backend : RlBackend
  cacheEntries : List (String × String)
  hasRatelimiter : Bool
  ratelimitEntries : List (String × String)
  deriving DecidableEq

/-- Ratelimit.clear (ratelimit/abstract.py 163-170) acting on the two
stores.  On memory, self.cache is the MemoryPool and clear() runs with the
default key "cls", failing the accepted-keys assert — the same path proved
on memoryPoolClear; on redis it is flushdb on the shared database, which
removes the cache entries too; on sqlite, self.cache is the pooled
SQLiteConnection, which has no clear method, so AttributeError is raised.
The failing backends raise before touching anything. -/
def ratelimitClear (backend : RlBackend)
    (_cacheEntries _ratelimitEntries : List (String × String)) :
    Except PyExc (List (String × String) × List (String × String)) :=
  match backend with
  | .memory => .error (.assertionError "Key is invalid. Must be one of all, cache, ratelimit.")
  | .redis => .ok ([], [])
  | .sqlite => .error (.attributeError "SQLiteConnection object has no attribute clear")

/-- BaseSession.clear_cache (base.py 61-68): clears self._cache when
hasattr("self", "_cache") holds, then calls self._ratelimiter.clear() when
hasattr(self, "_ratelimiter") holds; an exception from that clear
propagates out of clear_cache with the stores untouched. -/
def clearCacheSession (s : SessionStores) : Except PyExc SessionStores :=
  let s1 := if pyHasattrStrSelf "_cache" then { s with cacheEntries := [] } else s
  if s1.hasRatelimiter then
    match ratelimitClear s1.backend s1.cacheEntries s1.ratelimitEntries with
    | .error e => .error e
    | .ok (c, r) => .ok { s1 with cacheEntries := c, ratelimitEntries := r }
  else .ok s1

/-- The frame property the claim states, written from the claim text:
whenever clear_cache returns, the cache store contents are unchanged. -/
def c10ClaimedFrame (s : SessionStores) : Prop :=
  ∀ s2, clearCacheSession s = .ok s2 → s2.cacheEntries = s.cacheEntries

/-- A redis-backed session holding one cache entry and one rate-limit
entry. -/
def c10RedisSample : SessionStores :=
  { backend := .redis,
    cacheEntries := [("Session:http://example.com/x:cache", "v")],
    hasRatelimiter := true,
    ratelimitEntries := [("Session:GET:http://example.com/x:ratelimit", "w")] }

/- ------------------------------------------------------------------
C1 / C2: the three cache backends
------------------------------------------------------------------ -/

/-- SQLite database state shared by the cache and the rate limiter:
the cache table rows (key, value, expiration) and the rows of the
per-algorithm rate-limit tables. -/
structure SqliteDb where
  cacheRows : List (String × String × Int)
  ratelimitRows : List (String × String)
  deriving DecidableEq

/-- SQLiteCache.clear (cache/sqlite.py 97-100): DELETE FROM cache, which
touches only the cache table. -/
def sqliteCacheClear (db : SqliteDb) : SqliteDb :=
  { db with cacheRows := [] }

/-- RedisCache.clear (cache/redis.py 53-54): self._cache_conn.flushdb(),
which empties the whole database, rate-limit keys included. -/
def redisCacheClear (_db : List (String × String)) : List (String × String) :=
  []

/-- Python value held in the response slot of a CacheData: the key string
inserted by MemoryPool.__missing__, or the serialized bytes stored by set. -/
inductive MemPayload where
  | pyStr (s : String)
  | pyBytes (b : String)
  deriving DecidableEq

/-- Value stored in the shared in-memory mapping: cache entries are
CacheData objects, rate-limit state is any other object. -/
inductive MemVal where
  | cacheData (payload : MemPayload) (expiration : Int)
  | rlState (s : String)
  deriving DecidableEq

/-- Python isinstance(data, CacheData). -/
def isCacheData : MemVal → Bool
  | .cacheData _ _ => true
  | .rlState _ => false

/-- Keys accepted by MemoryPool.clear/keys/values/items. -/
def memoryAcceptedKeys : List String := ["all", "cache", "ratelimit"]

/-- MemoryPool.clear (backends/memory_pool.py 96-106): asserts the key is
one of all/cache/ratelimit, then drops cache entries (CacheData values) for
"cache", rate-limit entries for "ratelimit", everything for "all". -/
def memoryPoolClear (cache : List (String × MemVal)) (key : String) :
    Except PyExc (List (String × MemVal)) :=
  if memoryAcceptedKeys.contains key then
    if key = "all" then .ok []
    else if key = "cache" then .ok (cache.filter (fun kv => !isCacheData kv.2))
    else .ok (cache.filter (fun kv => isCacheData kv.2))
  else
    .error (.assertionError "Key is invalid. Must be one of all, cache, ratelimit.")

/-- InMemoryCache.clear (cache/pycache.py 57-58): calls MemoryPool.clear
with no argument, so the default key "cls" from memory_pool.py line 97 is
used. -/
def inMemoryCacheClear (cache : List (String × MemVal)) :
    Except PyExc (List (String × MemVal)) :=
  memoryPoolClear cache "cls"

/-- The zlib functions from cache/abstract.py: compressed bytes are tagged
so that decompressing something that is not zlib output fails. -/
inductive Blob where
  | raw (s : String)
  | zlib (s : String)
  deriving DecidableEq

/-- Cache._compress (cache/abstract.py 143-144). -/
def pyCompress (s : String) : Blob := .zlib s

/-- Cache._decompress (cache/abstract.py 146-147): zlib.decompress, which
fails on input that is not zlib-compressed bytes. -/
def pyDecompress : Blob → Except PyExc String
  | .zlib s => .ok s
  | .raw _ => .error (.zlibError "incorrect header check")

/-- SELECT value, expiration FROM cache WHERE key = ?. -/
def sqliteSelectCache (db : SqliteDb) (key : String) : Option (String × Int) :=
  match db.cacheRows.find? (fun row => row.1 = key) with
  | none => none
  | some row => some row.2

/-- DELETE FROM cache WHERE key = ?. -/
def sqliteDeleteRow (db : SqliteDb) (key : String) : SqliteDb :=
  { db with cacheRows := db.cacheRows.filter (fun row => row.1 ≠ key) }

/-- SQLiteCache.__setitem__ (cache/sqlite.py 76-87): INSERT OR REPLACE with
expiration = now + cache_timeout, or 0 when cache_timeout is 0.  The value
column holds the serialized response text (compression is modelled in the
Blob layer and is off in the rows we store here). -/
def sqliteCacheSet (db : SqliteDb) (cacheTimeout : Int) (key value : String)
    (now : Int) : SqliteDb :=
  let expiration := if cacheTimeout ≠ 0 then now + cacheTimeout else 0
  { db with
    cacheRows := (db.cacheRows.filter (fun row => row.1 ≠ key)) ++ [(key, value, expiration)] }

/-- SQLiteCache.__getitem__ (cache/sqlite.py 56-74), before the
Cache.deserialize wrapper: looks the key up; a missing row gives None; when
cache_timeout is set and expiration < now the row is deleted and None is
returned; otherwise the stored value is returned. -/
def sqliteCacheGetRaw (db : SqliteDb) (cacheTimeout : Int) (key : String)
    (now : Int) : Option String × SqliteDb :=
  match sqliteSelectCache db key with
  | none => (none, db)
  | some (data, expiration) =>
    if cacheTimeout ≠ 0 ∧ expiration < now then
      (none, sqliteDeleteRow db key)
    else
      (some data, db)

/-- MemoryPool shared-mapping state (backends/memory_pool.py). -/
structure MemoryPoolState where
  cache : List (String × MemVal)
  timeToCheck : Int
  deriving DecidableEq

/-- The expiration attribute read by MemoryPool._clear_my_expired_cache;
rate-limit state objects have no such attribute, so the read fails there. -/
def memExpiration : MemVal → Except PyExc Int
  | .cacheData _ e => .ok e
  | .rlState _ => .error (.attributeError "object has no attribute expiration")

/-- MemoryPool._clear_my_expired_cache (memory_pool.py 175-176): keeps the
entries with data.expiration > now or key different from the pool key.
The attribute read happens first, so a non-CacheData entry raises. -/
def memClearMyExpired (poolKey : String) (entries : List (String × MemVal))
    (now : Int) : Except PyExc (List (String × MemVal)) :=
  match entries with
  | [] => .ok []
  | (k, v) :: rest =>
    match memExpiration v with
    | .error e => .error e
    | .ok exp =>
      match memClearMyExpired poolKey rest now with
      | .error e => .error e
      | .ok rest2 =>
        if exp > now ∨ k ≠ poolKey then .ok ((k, v) :: rest2) else .ok rest2

/-- MemoryPool.__missing__ (memory_pool.py 58-62): builds the default value
for the key — for cache pools the default is Cache.default, which wraps its
argument (here the key itself) in CacheData(value, now + cache_timeout) —
stores it in the shared mapping, and returns it. -/
def memoryPoolMissing (pool : MemoryPoolState) (cacheTimeout : Int)
    (key : String) (now : Int) : MemVal × MemoryPoolState :=
  let v : MemVal := .cacheData (.pyStr key) (now + cacheTimeout)
  (v, { pool with cache := alSet pool.cache key v })

/-- MemoryPool.__getitem__ (memory_pool.py 46-56): sweeps at most once per
check_frequency seconds, then returns the stored value, falling back to
__missing__ — which inserts and returns a fresh default — when the key is
absent.  No per-read expiration check is made. -/
def memoryPoolGetItem (pool : MemoryPoolState) (poolKey : String)
    (cacheTimeout checkFrequency : Int) (key : String) (now : Int) :
    Except PyExc (MemVal × MemoryPoolState) :=
  let sweep : Except PyExc MemoryPoolState :=
    if cacheTimeout > 0 ∧ now ≥ pool.timeToCheck then
      match memClearMyExpired poolKey pool.cache now with
      | .error e => .error e
      | .ok entries => .ok { cache := entries, timeToCheck := now + checkFrequency }
    else .ok pool
  match sweep with
  | .error e => .error e
  | .ok pool2 =>
    match alGet pool2.cache key with
    | some v => .ok (v, pool2)
    | none => .ok (memoryPoolMissing pool2 cacheTimeout key now)

/-- zlib.decompress applied to a value fetched from the shared mapping:
the mapping stores CacheData wrappers and rate-limit state objects, never
bytes, so the call raises TypeError. -/
def memDecompressVal : MemVal → Except PyExc String
  | _ => .error (.typeError "a bytes-like object is required, not CacheData")

/-- orjson.loads applied to a value fetched from the shared mapping: the
value is a CacheData wrapper or state object, not bytes or str, so the
call raises TypeError. -/
def memJsonLoadsVal : MemVal → Except PyExc String
  | _ => .error (.typeError "Input must be bytes, bytearray, memoryview, or str")

/-- InMemoryCache.__getitem__ (cache/pycache.py 19-31) composed with the
Cache.deserialize wrapper (cache/abstract.py 132-138): fetches from the
pool, decompresses when compression is on, then JSON-parses.  The pool
hands back CacheData wrappers, on which both steps fail. -/
def inMemoryCacheGet (pool : MemoryPoolState) (poolKey : String)
    (cacheTimeout checkFrequency : Int) (compression : Bool) (key : String)
    (now : Int) : Except PyExc (Option String) × MemoryPoolState :=
  match memoryPoolGetItem pool poolKey cacheTimeout checkFrequency key now with
  | .error e => (.error e, pool)
  | .ok (v, pool2) =>
    if compression then
      match memDecompressVal v with
      | .error e => (.error e, pool2)
      | .ok s => (.ok (some s), pool2)
    else
      match memJsonLoadsVal v with
      | .error e => (.error e, pool2)
      | .ok s => (.ok (some s), pool2)

/- ------------------------------------------------------------------
C3: Response.serialize / Response.deserialize (src/sessions/objects.py)
------------------------------------------------------------------ -/

/-- Component of an aiohttp HttpVersion named tuple: an int when built by
the transport, a string after a deserialization round trip. -/
inductive VerComp where
  | intc (n : Int)
  | strc (s : String)
  deriving DecidableEq

/-- The version field of a Response: an aiohttp HttpVersion pair, or the
plain version string that the httpx session stores there. -/
inductive PyVersion where
  | httpVersion (major minor : VerComp)
  | vstr (s : String)
  deriving DecidableEq

/-- Request record (objects.py 21-51).  URLs are modelled as their string
rendering (URL(s) on an already-normalized string is the identity). -/
structure RequestL where
  url : Option String
  method : Option String
  headers : Option (List (String × String))
  real_url : Option String
  cookies : Option (List (String × String))
  deriving DecidableEq

/-- Response record (objects.py 54-122), restricted to the fields that
serialize/deserialize read or write.  content holds the body bytes, which
the serializer treats as UTF-8 text; elapsedUs is the elapsed timedelta in
microseconds (total_seconds round-trips exactly at that granularity). -/
structure ResponseL where
  callbacks : Option (List String)
  errors : Option String
  version : Option PyVersion
  status : Option Int
  reason : Option String
  ok : Option Bool
  method : Option String
  url : Option String
  real_url : Option String
  content : Option String
  cookies : Option (List (String × String))
  headers : Option (List (String × String))
  raw_headers : Option (List (String × String))
  request : Option RequestL
  elapsedUs : Option Int
  isCached : Bool
  deriving DecidableEq

/-- Python dict comprehension over a multi-map: first occurrence keeps its
position, a repeated key keeps the last value. -/
def dictOfList (l : List (String × String)) : List (String × String) :=
  l.foldl (fun m kv => alSet m kv.1 kv.2) []

/-- Python str() of an HttpVersion component. -/
def verCompRender : VerComp → String
  | .intc n => toString n
  | .strc s => s

/-- The version entry written by Response.serialize (objects.py 137-140):
an HttpVersion is rendered major/minor, anything else is kept as is. -/
def pyVersionSerialize : PyVersion → String
  | .httpVersion ma mi => verCompRender ma ++ "/" ++ verCompRender mi
  | .vstr s => s

/-- The request sub-mapping written by Response.serialize. -/
structure SerializedRequest where
  url : String
  method : Option String
  headers : List (String × String)
  real_url : Option String
  cookies : Option (List (String × String))
  deriving DecidableEq

/-- The self-describing mapping written by Response.serialize. -/
structure SerializedResponse where
  version : Option String
  status : Option Int
  reason : Option String
  ok : Option Bool
  elapsedUs : Int
  method : Option String
  headers : List (String × String)
  request : Option SerializedRequest
  content : Option String
  cookies : Option (List (String × String))
  url : Option String
  real_url : Option String
  deriving DecidableEq

/-- Response.serialize (objects.py 130-161).  Failures follow the source
order: elapsed.total_seconds() on a missing elapsed, the unbound local
headers when the response has no headers, dict(request.cookies) on a
request without cookies.  Note that the request sub-mapping stores the
local variable headers — the response headers — not request.headers. -/
def respSerialize (r : ResponseL) : Except PyExc SerializedResponse :=
  let version := r.version.map pyVersionSerialize
  match r.elapsedUs with
  | none => .error (.attributeError "NoneType object has no attribute total_seconds")
  | some el =>
    match r.headers with
    | none => .error (.nameError "name headers is not defined")
    | some hs =>
      let headers := dictOfList hs
      let reqSer : Except PyExc (Option SerializedRequest) :=
        match r.request with
        | none => .ok none
        | some rq =>
          match rq.cookies with
          | none => .error (.typeError "NoneType object is not iterable")
          | some cs =>
            .ok (some { url := pyStrOpt rq.url, method := rq.method,
                        headers := headers,
                        real_url := some (pyStrOpt rq.real_url),
                        cookies := some cs })
      match reqSer with
      | .error e => .error e
      | .ok req =>
        .ok { version := version, status := r.status, reason := r.reason,
              ok := r.ok, elapsedUs := el, method := r.method,
              headers := headers, request := req, content := r.content,
              cookies := r.cookies, url := r.url, real_url := r.real_url }

/-- Python str.split for a one-character separator, working on the
character list of the string. -/
def splitCharList (sep : Char) (l : List Char) : List (List Char) :=
  match l with
  | [] => [[]]
  | c :: rest =>
    let r := splitCharList sep rest
    if c = sep then [] :: r
    else
      match r with
      | [] => [[c]]
      | h :: t => (c :: h) :: t

/-- Python version.split("/"). -/
def pySplitSlash (s : String) : List String :=
  (splitCharList (Char.ofNat 47) s.data).map (fun l => String.mk l)

/-- HttpVersion(*version.split("/")): the constructor takes exactly two
positional arguments, received as strings. -/
def parseHttpVersion (s : String) : Except PyExc PyVersion :=
  match pySplitSlash s with
  | [a, b] => .ok (.httpVersion (.strc a) (.strc b))
  | _ => .error (.typeError "HttpVersion takes 2 positional arguments")

/-- Request(**request) with Request.__post_init__ (objects.py 40-48):
strings become URL/SimpleCookie/CIMultiDictProxy wrappers, modelled as the
underlying data. -/
def requestOfSerialized (rq : SerializedRequest) : RequestL :=
  { url := some rq.url, method := rq.method, headers := some rq.headers,
    real_url := rq.real_url, cookies := rq.cookies }

/-- Response.deserialize (objects.py 163-175): rebuilds the record from the
mapping; fields the mapping does not carry fall back to their defaults, and
the is-cached flag is set. -/
def respDeserialize (d : SerializedResponse) : Except PyExc ResponseL :=
  let build : Option PyVersion → ResponseL := fun v =>
    { callbacks := none, errors := none, version := v, status := d.status,
      reason := d.reason, ok := d.ok, method := d.method, url := d.url,
      real_url := d.real_url, content := d.content, cookies := d.cookies,
      headers := some d.headers, raw_headers := none,
      request := d.request.map requestOfSerialized,
      elapsedUs := some d.elapsedUs, isCached := true }
  match d.version with
  | none => .ok (build none)
  | some vs =>
    match parseHttpVersion vs with
    | .error e => .error e
    | .ok v => .ok (build (some v))

/-- The round-trip property claimed for the serialized fields, written from
the claim text: deserializing the serialization succeeds and returns every
serialized field — version, status, reason, ok, elapsed seconds, method,
headers, request info, body, cookies, URLs — unchanged, with is-cached
true. -/
def c3ClaimedRoundTrip (r : ResponseL) : Bool :=
  match respSerialize r with
  | .error _ => false
  | .ok s =>
    match respDeserialize s with
    | .error _ => false
    | .ok r2 =>
      r2.version = r.version ∧ r2.status = r.status ∧ r2.reason = r.reason ∧
      r2.ok = r.ok ∧ r2.elapsedUs = r.elapsedUs ∧ r2.method = r.method ∧
      r2.headers = r.headers ∧ r2.request = r.request ∧
      r2.content = r.content ∧ r2.cookies = r.cookies ∧
      r2.url = r.url ∧ r2.real_url = r.real_url ∧ r2.isCached = true

/-- A concrete 2xx response whose request carries headers different from
the response headers. -/
def c3Sample : ResponseL :=
  { callbacks := none, errors := none, version := none, status := some 200,
    reason := some "OK", ok := some true, method := some "GET",
    url := some "http://example.com/x", real_url := some "http://example.com/x",
    content := some "body", cookies := none,
    headers := some [("Content-Type", "text/html")], raw_headers := none,
    request := some { url := some "http://example.com/x", method := some "GET",
                      headers := some [("Accept", "application/json")],
                      real_url := some "http://example.com/x", cookies := some [] },
    elapsedUs := some 1500, isCached := false }

/- ------------------------------------------------------------------
C4: the request pipeline around the transport call in Session.request
(src/sessions/session.py 196-218, with _retrieve_response 162-178) and
AsyncSession.request (src/sessions/asyncsession.py 152-182)
------------------------------------------------------------------ -/

/-- Request record attached to a synthesized response:
Request(url=url, method=method, headers=headers). -/
structure ReqInfo where
  url : Option String
  method : Option String
  headers : Option (List (String × String))
  deriving DecidableEq

/-- Response record as the request pipelines build and rebuild it,
restricted to the fields the cited code reads or writes. -/
structure SessResponse where
  version : Option String
  status : Option Int
  ok : Option Bool
  reason : Option String
  url : Option String
  method : Option String
  content : Option String
  encoding : Option String
  cookies : Option (List (String × String))
  headers : Option (List (String × String))
  history : Option (List String)
  request : Option ReqInfo
  errors : Option String
  elapsedUs : Option Int
  isCached : Bool
  deriving DecidableEq

/-- Python x or None on a string field: the empty string is falsy. -/
def pyTruthyStr : Option String → Option String
  | some s => if s = "" then none else some s
  | none => none

/-- Python x or None on an int field: zero is falsy. -/
def pyTruthyInt : Option Int → Option Int
  | some n => if n = 0 then none else some n
  | none => none

/-- Python x or None on a mapping field: an empty mapping is falsy. -/
def pyTruthyListP : Option (List (String × String)) → Option (List (String × String))
  | some l => if l = [] then none else some l
  | none => none

/-- Python x or None on the history sequence. -/
def pyTruthyList : Option (List String) → Option (List String)
  | some l => if l = [] then none else some l
  | none => none

/-- Python x or None on the elapsed timedelta: a zero duration is falsy. -/
def pyTruthyElapsed : Option Int → Option Int
  | some n => if n = 0 then none else some n
  | none => none

/-- Session._retrieve_response (session.py 162-178), before its
_run_callbacks call: rebuilds the response as Response(**{...}) from a
field list carrying ok, version, status, method — read from
response.request — reason, url, content, encoding, cookies, headers,
history, request and elapsed, each guarded by or None, and not errors, so
the rebuilt record has errors=None.  Comparing a missing status with 400
or reading request.method on a missing request raises. -/
def syncRetrieveRebuild (r : SessResponse) : Except PyExc SessResponse :=
  match r.status with
  | none => .error (.typeError "not supported between instances of NoneType and int")
  | some st =>
    match r.request with
    | none => .error (.attributeError "NoneType object has no attribute method")
    | some rq =>
      .ok { version := pyTruthyStr r.version, status := pyTruthyInt (some st),
            ok := some (decide (st < 400)), reason := pyTruthyStr r.reason,
            url := pyTruthyStr r.url, method := pyTruthyStr rq.method,
            content := pyTruthyStr r.content, encoding := pyTruthyStr r.encoding,
            cookies := pyTruthyListP r.cookies, headers := pyTruthyListP r.headers,
            history := pyTruthyList r.history, request := some rq,
            errors := none, elapsedUs := pyTruthyElapsed r.elapsedUs,
            isCached := false }

/-- Outcome of the transport call inside the try block.  success carries
the transport response; clientErr carries the aiohttp ClientError branch
data: the bound response status when the local variable response was
assigned before the failure, none when it was never bound. -/
inductive TransportOutcome where
  | success (r : SessResponse)
  | timeoutExc (e : String)
  | clientErr (e : String) (bound : Option (Option Int))
  | otherExc (e : String)

/-- The response synthesized by the sync timeout branch (session.py 210):
status 408, reason "Request Timeout", the cause as errors, and a Request
record built from url, method and headers. -/
def syncSynth408 (url method : String) (headers : Option (List (String × String)))
    (e : String) : SessResponse :=
  { version := none, status := some 408, ok := some false,
    reason := some "Request Timeout", url := some url, method := some method,
    content := none, encoding := none, cookies := none, headers := none,
    history := none,
    request := some { url := some url, method := some method, headers := headers },
    errors := some e, elapsedUs := none, isCached := false }

/-- The response synthesized by the sync generic-exception branch
(session.py 214). -/
def syncSynth500 (url method : String) (headers : Option (List (String × String)))
    (e : String) : SessResponse :=
  { syncSynth408 url method headers e with
    status := some 500, reason := some "Internal Server Error" }

/-- Session.request (session.py 196-218): the try/except around the
transport maps httpx TimeoutException to a synthesized 408 and every other
exception to a synthesized 500, each carrying the cause and a Request
record, unless raise_errors propagates the exception; every non-raising
path then flows through the _retrieve_response rebuild at line 216, which
drops the errors field.  The _run_callbacks call after the rebuild only
sets the is-cached flag and the callback results, so it is not modelled
further here (it is the subject of runCallbacks). -/
def syncRequestResult (raiseErrors : Bool) (t : TransportOutcome)
    (url method : String) (headers : Option (List (String × String))) :
    Except PyExc SessResponse :=
  let afterTry : Except PyExc SessResponse :=
    match t with
    | .success r => .ok r
    | .timeoutExc e =>
      if raiseErrors then .error (.timeoutException e)
      else .ok (syncSynth408 url method headers e)
    | .clientErr e _ | .otherExc e =>
      if raiseErrors then .error (.exception e)
      else .ok (syncSynth500 url method headers e)
  match afterTry with
  | .error e => .error e
  | .ok resp => syncRetrieveRebuild resp

/-- AsyncSession.request (asyncsession.py 152-182): asyncio.TimeoutError
gives Response(status=408, errors=e, reason="TimeoutError",
content=str(e)); ClientError reuses the bound response status — consulting
the unbound local raises NameError — with reason "ClientError"; any other
exception gives 500 "Exception"; with raise_errors set the exception
propagates.  The synthesized response is returned through _run_callbacks,
which only sets the is-cached flag and the callback results, so the
attached error survives to the caller. -/
def asyncRequestResult (raiseErrors : Bool) (t : TransportOutcome) :
    Except PyExc SessResponse :=
  match t with
  | .success r => .ok r
  | .timeoutExc e =>
    if raiseErrors then .error (.timeoutError e)
    else .ok { version := none, status := some 408, ok := none,
               reason := some "TimeoutError", url := none, method := none,
               content := some e, encoding := none, cookies := none,
               headers := none, history := none, request := none,
               errors := some e, elapsedUs := none, isCached := false }
  | .clientErr e bound =>
    if raiseErrors then .error (.clientError e)
    else
      match bound with
      | none => .error (.nameError "name response is not defined")
      | some st =>
        let status := match st with | some s => s | none => 500
        .ok { version := none, status := some status, ok := none,
              reason := some "ClientError", url := none, method := none,
              content := some e, encoding := none, cookies := none,
              headers := none, history := none, request := none,
              errors := some e, elapsedUs := none, isCached := false }
  | .otherExc e =>
    if raiseErrors then .error (.exception e)
    else .ok { version := none, status := some 500, ok := none,
               reason := some "Exception", url := none, method := none,
               content := some e, encoding := none, cookies := none,
               headers := none, history := none, request := none,
               errors := some e, elapsedUs := none, isCached := false }

/-- The behaviour the claim states, written from the claim text: on a
transport timeout without raise_errors, both the sync and the async
request return a synthesized response with status 408, reason
"Request Timeout" and the causing exception attached as the error. -/
def c4Claimed : Prop :=
  (∀ e url method headers, ∃ r,
    syncRequestResult false (.timeoutExc e) url method headers = .ok r ∧
    r.status = some 408 ∧ r.reason = some "Request Timeout" ∧ r.errors = some e) ∧
  (∀ e, ∃ r, asyncRequestResult false (.timeoutExc e) = .ok r ∧
    r.status = some 408 ∧ r.reason = some "Request Timeout" ∧ r.errors = some e)

/- ------------------------------------------------------------------
C5: BaseSession._cache_decorator (src/sessions/base.py 70-113)
------------------------------------------------------------------ -/

/-- Response shape consumed by the cache decorator: the status code read
by its store condition, plus the fields a synthesized response carries. -/
structure ErrResponse where
  status : Option Int
  ok : Option Bool
  reason : Option String
  url : Option String
  method : Option String
  content : Option String
  errors : Option String
  hasRequestInfo : Bool
  deriving DecidableEq

/-- Python str() of an optional int, as applied to response.status_code. -/
def pyStrOptInt : Option Int → String
  | none => "None"
  | some n => toString n

/-- The store condition of the cache decorator:
str(response.status_code).startswith("2"), i.e. the first character of the
rendering is the digit 2. -/
def statusStartsWith2 (status : Option Int) : Bool :=
  match (pyStrOptInt status).data with
  | [] => false
  | c :: _ => c = '2'

/-- One pass of the synchronous cache decorator (base.py 100-113) after
the rate-limit layer: resolves the effective cache flag, serves a hit
without storing, and otherwise runs the transport and stores the fresh
response exactly when the flag is on and the status string starts with 2.
Returns the served response source and whether a store happened. -/
def syncCacheDecorator (cacheArg : Option Bool) (sessionUseCache : Bool)
    (cached : Option ErrResponse) (fresh : ErrResponse) :
    (ErrResponse × Bool) × Bool :=
  let cache := cacheArg.getD sessionUseCache
  if cache then
    match cached with
    | some r => ((r, true), false)
    | none => ((fresh, false), statusStartsWith2 fresh.status)
  else
    ((fresh, false), false)

/-- One pass of the asynchronous cache decorator (base.py 81-98): the same
resolution, with the lookup, transport call and store all under the
session semaphore. -/
def asyncCacheDecorator (cacheArg : Option Bool) (sessionUseCache : Bool)
    (cached : Option ErrResponse) (fresh : ErrResponse) :
    (ErrResponse × Bool) × Bool :=
  let cache := cacheArg.getD sessionUseCache
  if cache then
    match cached with
    | some r => ((r, true), false)
    | none => ((fresh, false), statusStartsWith2 fresh.status)
  else
    ((fresh, false), false)

/- ------------------------------------------------------------------
C6: Ratelimit._parse_url / Ratelimit._parse_key
(src/sessions/ratelimit/abstract.py 172-187)
------------------------------------------------------------------ -/

/-- Python sep.join(parts). -/
def pyJoin (sep : String) : List String → String
  | [] => ""
  | [x] => x
  | x :: xs => x ++ sep ++ pyJoin sep xs

/-- An absolute request URL, split the way yarl exposes it.  str(url)
renders scheme://host followed by the path. -/
structure UrlL where
  scheme : String
  host : String
  path : String
  deriving DecidableEq

/-- Python str(url) for a yarl URL without query or fragment. -/
def urlRender (u : UrlL) : String :=
  u.scheme ++ "://" ++ u.host ++ u.path

/-- The rate-limit options consulted by key derivation. -/
structure RlKeyOptions where
  key : String
  perHost : Bool
  perEndpoint : Bool
  deriving DecidableEq

/-- Ratelimit._parse_url (abstract.py 172-181): scheme+host under per_host,
scheme+host+path under per_endpoint (per_host first), otherwise the URL
object itself, which str() renders in full inside the join. -/
def rlParseUrl (o : RlKeyOptions) (u : UrlL) : String :=
  if o.perHost then u.scheme ++ "://" ++ u.host
  else if o.perEndpoint then u.scheme ++ "://" ++ u.host ++ u.path
  else urlRender u

/-- Ratelimit._parse_key (abstract.py 183-187): keys collapse to [] unless
a list/tuple/set was passed; the key is the colon-join of the str() of the
components (options.key, method, *keys, url, "ratelimit") that are not
None. -/
def rlParseKey (o : RlKeyOptions) (method : Option String)
    (keys : Option (List String)) (u : UrlL) : String :=
  let url := rlParseUrl o u
  let keysList := keys.getD []
  pyJoin ":"
    (((([some o.key, method] ++ keysList.map some) ++ [some url, some "ratelimit"]).filterMap id))

/-- The key derivation as the claim states it: colon-join of the non-empty
components, where the URL contributes scheme+host under per-host keying,
scheme+host+path under per-endpoint keying, and nothing under global
keying. -/
def rlParseKeyClaimed (o : RlKeyOptions) (method : Option String)
    (keys : Option (List String)) (u : UrlL) : String :=
  let urlPart : Option String :=
    if o.perHost then some (u.scheme ++ "://" ++ u.host)
    else if o.perEndpoint then some (u.scheme ++ "://" ++ u.host ++ u.path)
    else none
  let keysList := keys.getD []
  pyJoin ":"
    (((([some o.key, method] ++ keysList.map some) ++ [urlPart, some "ratelimit"]).filterMap id).filter
      (fun c => c ≠ ""))

/-- The key derivation as amended: colon-join of the non-None components,
with the full URL as the contribution under global keying. -/
def rlParseKeyAmended (o : RlKeyOptions) (method : Option String)
    (keys : Option (List String)) (u : UrlL) : String :=
  let urlPart : String :=
    if o.perHost then u.scheme ++ "://" ++ u.host
    else if o.perEndpoint then u.scheme ++ "://" ++ u.host ++ u.path
    else urlRender u
  pyJoin ":"
    ((([some o.key, method] ++ (keys.getD []).map some) ++ [some urlPart, some "ratelimit"]).filterMap id)

/- ------------------------------------------------------------------
C7: BaseSession._run_callbacks (src/sessions/base.py 144-191)
------------------------------------------------------------------ -/

/-- The SessionConfig flags the callback runner consults. -/
structure CbConfig where
  runCallbacksOnError : Bool
  returnCallbacks : Bool
  deriving DecidableEq

/-- Outcome of invoking one callback: its return value, or the exception
it raised. -/
inductive CbRet where
  | val (s : String)
  | exc (s : String)
  deriving DecidableEq

/-- The response fields the callback runner touches. -/
structure CbResponse where
  errors : Option String
  callbacksField : Option (List CbRet)
  isCached : Bool
  body : String
  deriving DecidableEq

/-- An entry of the callbacks argument: a callable — modelled as a function
from the response to its outcome, the exc case standing for a raise — or a
non-callable object. -/
inductive CallbackItem where
  | clb (f : CbResponse → CbRet)
  | notCallable

/-- The loop of _run_callbacks (base.py 169-183): callable entries append
their return value or their caught exception to rets; non-callable entries
append nothing. -/
def runCbLoop (l : List CallbackItem) (r : CbResponse) : List CbRet :=
  l.foldl (fun rets cb =>
    match cb with
    | .clb f => rets ++ [f r]
    | .notCallable => rets) []

/-- BaseSession._run_callbacks (base.py 144-191): sets the is-cached flag,
returns early — still advancing the progress bar — when callbacks is None
or the response records an error with run_callbacks_on_error off,
otherwise runs every callback with exceptions caught, attaches the results
when return_callbacks is set, and advances the progress bar.  The second
component counts how often the bar ticked. -/
def runCallbacks (cfg : CbConfig) (r : CbResponse)
    (callbacks : Option (List CallbackItem)) (bar : Bool) (isCache : Bool) :
    CbResponse × Nat :=
  let r1 := { r with isCached := isCache }
  let tick := if bar then 1 else 0
  match callbacks with
  | none => (r1, tick)
  | some l =>
    if r1.errors ≠ none ∧ ¬ cfg.runCallbacksOnError then (r1, tick)
    else
      let rets := runCbLoop l r1
      let r2 := if cfg.returnCallbacks then { r1 with callbacksField := some rets } else r1
      (r2, tick)

/- ------------------------------------------------------------------
C8: SQLiteConnectionPool.get_connection (backends/sqlite_pool.py 111-152)
and SQLiteConnection (backends/resources/sqlite.py 9-22)
------------------------------------------------------------------ -/

/-- SQLiteConnection: records the creating thread id in _thread_id at
construction (resources/sqlite.py 14-22). -/
structure SqliteConn where
  id : Nat
  threadId : Nat
  deriving DecidableEq

/-- State of one SQLiteConnectionPool.  pools holds the per-thread
SQLitePool queues; poolCounters holds each SQLitePool.n_connections, which
is set to 0 at construction (sqlite_pool.py 40) and never incremented;
registryCounters holds the SQLiteConnectionPool.n_connections defaultdict,
the counter create_connection actually bumps (line 151). -/
structure SqlitePoolState where
  pools : Nat → List SqliteConn
  poolCounters : Nat → Nat
  registryCounters : Nat → Nat
  maxConnections : Nat
  nextId : Nat

/-- A fresh pool with the given per-thread max_connections. -/
def initSqlitePoolState (maxC : Nat) : SqlitePoolState :=
  { pools := fun _ => [], poolCounters := fun _ => 0,
    registryCounters := fun _ => 0, maxConnections := maxC, nextId := 0 }

/-- SQLiteConnectionPool.create_connection (sqlite_pool.py 149-152): bumps
self.n_connections[thread_id] — the registry counter, not the SQLitePool
counter consulted by get_connection — and builds a connection owned by the
calling thread. -/
def createConnection (tid : Nat) (s : SqlitePoolState) :
    SqliteConn × SqlitePoolState :=
  let c : SqliteConn := { id := s.nextId, threadId := tid }
  (c, { s with
        registryCounters := fun t => if t = tid then s.registryCounters t + 1 else s.registryCounters t,
        nextId := s.nextId + 1 })

/-- SQLiteConnectionPool.get_connection (sqlite_pool.py 111-134), called
from thread tid: takes the calling thread's own pool (the pool property is
self.pools[self.thread_id]); on an empty pool it creates a new connection
when pool.n_connections < pool.max_connections, and otherwise waits for the
pool to fill (that branch never binds conn in the source and is modelled as
returning no connection); on a non-empty pool it takes the front entry. -/
def getConnection (tid : Nat) (s : SqlitePoolState) :
    Option SqliteConn × SqlitePoolState :=
  match s.pools tid with
  | [] =>
    if s.poolCounters tid < s.maxConnections then
      let (c, s2) := createConnection tid s
      (some c, s2)
    else
      (none, s)
  | c :: rest =>
    (some c, { s with pools := fun t => if t = tid then rest else s.pools t })

/-- n successive get_connection calls from the same thread with no
intervening release. -/
def getConnectionN : Nat → Nat → SqlitePoolState → List (Option SqliteConn) × SqlitePoolState
  | 0, _, s => ([], s)
  | n + 1, tid, s =>
    let (c, s2) := getConnection tid s
    let (cs, s3) := getConnectionN n tid s2
    (c :: cs, s3)

/- ------------------------------------------------------------------
C9: _validate_port and RedisServerOptions.redis_server_config
(src/sessions/options.py 10-17, 74-110) and the backends variant
(src/sessions/backends/options.py 63-76)
------------------------------------------------------------------ -/

/-- A port argument: an int, a string to be parsed by int(), or absent. -/
inductive PortVal where
  | pint (n : Int)
  | pstr (s : String)
  deriving DecidableEq

/-- _validate_port (options.py 10-17): None passes; int(port) must parse
and lie in 0..65535, any failure raising ValueError. -/
def validatePort (port : Option PortVal) : Except PyExc Unit :=
  match port with
  | none => .ok ()
  | some p =>
    let parsed : Option Int :=
      match p with
      | .pint n => some n
      | .pstr s => s.toInt?
    match parsed with
    | none => .error (.valueError "Port must be an integer or string between 0 and 65535.")
    | some n =>
      if 0 ≤ n ∧ n ≤ 65535 then .ok ()
      else .error (.valueError "Port must be an integer or string between 0 and 65535.")

/-- The maxmemory field: an int or a string such as "100mb". -/
inductive MaxMem where
  | mint (n : Int)
  | mstr (s : String)
  deriving DecidableEq

/-- Python str() of a maxmemory value. -/
def maxMemStr : MaxMem → String
  | .mint n => toString n
  | .mstr s => s

/-- The RedisServerOptions fields redis_server_config reads
(options.py 43-62). -/
structure RedisSrvOpts where
  username : Option String
  password : Option String
  host : Option String
  port : Option Int
  db : Option String
  dbfilename : Option String
  save : List String
  maxmemory : MaxMem
  maxmemoryPolicy : String
  decodeResponses : Bool
  protocol : Int
  deriving DecidableEq

/-- The eight allowed eviction policies (options.py 104,
backends/options.py 46). -/
def allowedMemoryPolicies : List String :=
  ["volatile-lru", "allkeys-lru", "volatile-lfu", "allkeys-lfu",
   "volatile-random", "allkeys-random", "volatile-ttl", "noeviction"]

/-- Python str.lower() on ASCII policy names. -/
def pyLower (s : String) : String := String.mk (s.data.map Char.toLower)

/-- Python str(x).replace(" ", "") as applied to maxmemory values. -/
def pyRemoveSpaces (s : String) : String := String.mk (s.data.filter (fun c => c ≠ ' '))

/-- Values held in the configuration mapping redis_server_config builds. -/
inductive CfgVal where
  | vs (v : String)
  | vi (n : Int)
  | vb (v : Bool)
  | vd (m : List (String × CfgVal))
  | vsl (v : List String)

/-- options["serverconfig"][innerKey] = v for an assembled options
mapping whose serverconfig entry is a nested dict. -/
def cfgSetInner (m : List (String × CfgVal)) (innerKey : String) (v : CfgVal) :
    List (String × CfgVal) :=
  match alGet m "serverconfig" with
  | some (.vd inner) => alSet m "serverconfig" (.vd (alSet inner innerKey v))
  | _ => m

/-- RedisServerOptions.redis_server_config (options.py 74-110).  With a
host, a client-connection mapping is returned.  Otherwise a server
mapping is assembled: dbfilename from dbfilename or db; maxmemory put
under serverconfig when it is a positive int or a string whose first
character is not "0" (indexing an empty string raises); then the source
asserts options.get("maxmemory") is not None whenever the lowered policy
is not noeviction — a lookup at the top level of the mapping, where
maxmemory is never stored, so the assertion fails for every non-default
policy; then the policy must be one of the allowed eight. -/
def redisServerConfig (o : RedisSrvOpts) : Except PyExc (List (String × CfgVal)) :=
  match o.host with
  | some h =>
    let opts := alSet [] "host" (.vs h)
    let opts := alSet opts "port" (.vi (o.port.getD 6379))
    let opts := match o.username with
      | some u => alSet opts "username" (.vs u)
      | none => opts
    let opts := match o.password with
      | some p => alSet opts "password" (.vs p)
      | none => opts
    .ok opts
  | none =>
    let opts := alSet [] "serverconfig" (.vd [])
    let opts := match o.dbfilename, o.db with
      | some f, _ => alSet opts "dbfilename" (.vs f)
      | none, some d => alSet opts "dbfilename" (.vs d)
      | none, none => opts
    let useMaxmemory : Except PyExc Bool :=
      match o.maxmemory with
      | .mint n => .ok (decide (0 < n))
      | .mstr s =>
        match s.data with
        | [] => .error (.indexError "string index out of range")
        | c :: _ => .ok (decide (c ≠ '0'))
    match useMaxmemory with
    | .error e => .error e
    | .ok useMm =>
      let opts :=
        if useMm then cfgSetInner opts "maxmemory" (.vs (pyRemoveSpaces (maxMemStr o.maxmemory)))
        else opts
      let policy := pyLower o.maxmemoryPolicy
      if policy ≠ "noeviction" ∧ (alGet opts "maxmemory").isNone then
        .error (.assertionError "maxmemory must be set if maxmemory-policy is not noeviction")
      else if ¬ allowedMemoryPolicies.contains o.maxmemoryPolicy then
        .error (.assertionError "maxmemory-policy must be one of the allowed eviction policies")
      else
        let opts := cfgSetInner opts "maxmemory-policy" (.vs policy)
        let opts := cfgSetInner opts "save" (.vsl o.save)
        let opts := alSet opts "decode_responses" (.vb o.decodeResponses)
        let opts := alSet opts "protocol" (.vi o.protocol)
        .ok opts

/-- A consistent, fully valid server configuration: no host, maxmemory set
to "100mb", eviction policy allkeys-lru. -/
def redisValidCombo : RedisSrvOpts :=
  { username := none, password := none, host := none, port := none,
    db := none, dbfilename := none, save := ["900 1"],
    maxmemory := .mstr "100mb", maxmemoryPolicy := "allkeys-lru",
    decodeResponses := false, protocol := 3 }

/- ------------------------------------------------------------------
Helper lemmas
------------------------------------------------------------------ -/

/-- The callback loop collects exactly the outcomes of the callable
entries, in order. -/
theorem runCbLoop_eq (l : List CallbackItem) (r : CbResponse) :
    runCbLoop l r = l.filterMap (fun cb =>
      match cb with
      | .clb f => some (f r)
      | .notCallable => none) := by
  have aux : ∀ (t : List CallbackItem) (init : List CbRet),
      t.foldl (fun rets cb =>
        match cb with
        | CallbackItem.clb f => rets ++ [f r]
        | CallbackItem.notCallable => rets) init
      = init ++ t.filterMap (fun cb =>
        match cb with
        | CallbackItem.clb f => some (f r)
        | CallbackItem.notCallable => none) := by
    intro t
    induction t with
    | nil => intro init; simp
    | cons a t2 ih => intro init; cases a <;> simp [ih]
  simpa [runCbLoop] using aux l []

set_option maxRecDepth 100000

/-- On the status range of three-digit HTTP codes, the decimal rendering
starts with the character 2 exactly on 200..299. -/
theorem statusStartsWith2_aux :
    ((List.range 900).all (fun k =>
      statusStartsWith2 (some ((100 : Int) + k)) =
        decide (200 ≤ (100 : Int) + k ∧ (100 : Int) + k ≤ 299))) = true := by
  decide

/- ------------------------------------------------------------------
Claim theorems
------------------------------------------------------------------ -/

/-- C10 counterexample: on a redis-backed session, clear_cache does change
the cache store — the hasattr guard is always false, but the surviving
branch calls Ratelimit.clear, which is flushdb on the shared database. -/
theorem clear_cache_frame_counterexample : ¬ c10ClaimedFrame c10RedisSample := by
  intro h
  have h2 := h { backend := .redis, cacheEntries := [], hasRatelimiter := true,
                 ratelimitEntries := [] } rfl
  exact absurd h2 (by decide)

/-- C10 amended: the hasattr("self", "_cache") guard is always false, so
the cache-clearing branch never runs; what clear_cache then does is the
rate limiter's clear: on redis it is flushdb, wiping the shared database —
cache entries included; on memory the MemoryPool.clear default key "cls"
fails its assert and AssertionError propagates with nothing cleared; on
sqlite the pooled connection has no clear method and AttributeError
propagates with nothing cleared. -/
theorem clear_cache_amended (s : SessionStores) :
    pyHasattrStrSelf "_cache" = false ∧
    (s.hasRatelimiter = false → clearCacheSession s = .ok s) ∧
    (s.hasRatelimiter = true → s.backend = .redis →
      clearCacheSession s = .ok { s with cacheEntries := [], ratelimitEntries := [] }) ∧
    (s.hasRatelimiter = true → s.backend = .memory →
      clearCacheSession s =
        .error (.assertionError "Key is invalid. Must be one of all, cache, ratelimit.")) ∧
    (s.hasRatelimiter = true → s.backend = .sqlite →
      clearCacheSession s =
        .error (.attributeError "SQLiteConnection object has no attribute clear")) := by
  have hguard : pyHasattrStrSelf "_cache" = false := by decide
  refine ⟨hguard, ?_, ?_, ?_, ?_⟩
  · intro h1
    simp [clearCacheSession, hguard, h1]
  · intro h1 h2
    simp [clearCacheSession, ratelimitClear, hguard, h1, h2]
  · intro h1 h2
    simp [clearCacheSession, ratelimitClear, hguard, h1, h2]
  · intro h1 h2
    simp [clearCacheSession, ratelimitClear, hguard, h1, h2]

/-- C10 amended, witness on a redis-backed session state. -/
theorem clear_cache_amended_witness :
    pyHasattrStrSelf "_cache" = false ∧
    clearCacheSession c10RedisSample =
      .ok { backend := .redis, cacheEntries := [], hasRatelimiter := true,
            ratelimitEntries := [] } :=
  ⟨(clear_cache_amended c10RedisSample).1,
   (clear_cache_amended c10RedisSample).2.2.1 rfl rfl⟩

/-- C1: the SQLite cache clear only empties the cache table, but the Redis
cache clear is flushdb and also removes the rate-limit key present in the
database, and the in-memory cache clear calls MemoryPool.clear with the
default key "cls", which fails the accepted-keys assertion and removes
nothing. -/
theorem cache_clear_backend_independence_eval :
    (∀ db : SqliteDb, (sqliteCacheClear db).ratelimitRows = db.ratelimitRows ∧
      (sqliteCacheClear db).cacheRows = []) ∧
    (alGet [("Session:http://example.com/x:cache", "v"),
            ("Session:GET:http://example.com/x:ratelimit", "w")]
      "Session:GET:http://example.com/x:ratelimit" = some "w" ∧
     redisCacheClear [("Session:http://example.com/x:cache", "v"),
                      ("Session:GET:http://example.com/x:ratelimit", "w")] = [] ∧
     alGet (redisCacheClear [("Session:http://example.com/x:cache", "v"),
                             ("Session:GET:http://example.com/x:ratelimit", "w")])
      "Session:GET:http://example.com/x:ratelimit" = none) ∧
    inMemoryCacheClear
      [("Session:http://example.com/x:cache", MemVal.cacheData (.pyBytes "v") 10),
       ("Session:GET:http://example.com/x:ratelimit", MemVal.rlState "w")] =
      .error (.assertionError "Key is invalid. Must be one of all, cache, ratelimit.") := by
  exact ⟨fun db => ⟨rfl, rfl⟩, ⟨rfl, rfl, rfl⟩, rfl⟩

/-- C2: on the SQLite backend an unexpired entry is returned and a missing
or expired entry gives absent, but on the memory backend a missing key
makes MemoryPool.__getitem__ insert and return a freshly built CacheData
default instead of absent, and the cache get around it then raises
TypeError instead of returning absent. -/
theorem cache_get_ttl_eval :
    ((sqliteCacheGetRaw (sqliteCacheSet ⟨[], []⟩ 300 "k" "resp" 0) 300 "k" 100).1 = some "resp" ∧
     (sqliteCacheGetRaw (sqliteCacheSet ⟨[], []⟩ 300 "k" "resp" 0) 300 "k" 301).1 = none ∧
     (sqliteCacheGetRaw ⟨[], []⟩ 300 "missing" 100).1 = none) ∧
    memoryPoolGetItem ⟨[], 100⟩ "cache" 300 30 "cache:http://example.com/x:cache" 0 =
      .ok (MemVal.cacheData (.pyStr "cache:http://example.com/x:cache") 300,
           ⟨[("cache:http://example.com/x:cache",
              MemVal.cacheData (.pyStr "cache:http://example.com/x:cache") 300)], 100⟩) ∧
    (inMemoryCacheGet ⟨[], 100⟩ "cache" 300 30 true "cache:http://example.com/x:cache" 0).1 =
      .error (.typeError "a bytes-like object is required, not CacheData") ∧
    (inMemoryCacheGet ⟨[], 100⟩ "cache" 300 30 false "cache:http://example.com/x:cache" 0).1 =
      .error (.typeError "Input must be bytes, bytearray, memoryview, or str") := by
  exact ⟨⟨rfl, rfl, rfl⟩, rfl, rfl, rfl⟩

/-- C3 counterexample: a 2xx response whose request headers differ from the
response headers does not round-trip as claimed — the serializer writes the
response headers into the request sub-mapping. -/
theorem response_roundtrip_counterexample : c3ClaimedRoundTrip c3Sample = false := by
  decide

/-- C3 amended: for a response with headers, elapsed time, and a request
carrying cookies, deserializing the serialization yields a record marked
is-cached whose serialized fields round-trip, except that the headers come
back as a last-wins dict, the request info carries the response headers in
place of its own, and version components are re-parsed as strings. -/
theorem response_roundtrip_amended (r : ResponseL) (el : Int)
    (hs : List (String × String)) (rq : RequestL) (cs : List (String × String))
    (hel : r.elapsedUs = some el) (hh : r.headers = some hs)
    (hrq : r.request = some rq) (hcs : rq.cookies = some cs)
    (hv : r.version = none) :
    (∃ s, respSerialize r = .ok s ∧
      respDeserialize s = .ok
        { callbacks := none, errors := none, version := none,
          status := r.status, reason := r.reason, ok := r.ok,
          method := r.method, url := r.url, real_url := r.real_url,
          content := r.content, cookies := r.cookies,
          headers := some (dictOfList hs), raw_headers := none,
          request := some { url := some (pyStrOpt rq.url), method := rq.method,
                            headers := some (dictOfList hs),
                            real_url := some (pyStrOpt rq.real_url),
                            cookies := some cs },
          elapsedUs := some el, isCached := true }) ∧
    pyVersionSerialize (.httpVersion (.intc 1) (.intc 1)) = "1/1" ∧
    parseHttpVersion "1/1" = .ok (.httpVersion (.strc "1") (.strc "1")) := by
  refine ⟨?_, rfl, rfl⟩
  refine ⟨?_, ?_, ?_⟩
  · exact { version := none, status := r.status, reason := r.reason,
            ok := r.ok, elapsedUs := el, method := r.method,
            headers := dictOfList hs,
            request := some { url := pyStrOpt rq.url, method := rq.method,
                              headers := dictOfList hs,
                              real_url := some (pyStrOpt rq.real_url),
                              cookies := some cs },
            content := r.content, cookies := r.cookies, url := r.url,
            real_url := r.real_url }
  · simp [respSerialize, hel, hh, hrq, hcs, hv]
  · simp [respDeserialize, requestOfSerialized]

/-- C3 amended, witness at the concrete sample. -/
theorem response_roundtrip_amended_witness :
    c3Sample.elapsedUs = some 1500 ∧
    ((∃ s, respSerialize c3Sample = .ok s ∧
      respDeserialize s = .ok
        { callbacks := none, errors := none, version := none,
          status := c3Sample.status, reason := c3Sample.reason, ok := c3Sample.ok,
          method := c3Sample.method, url := c3Sample.url, real_url := c3Sample.real_url,
          content := c3Sample.content, cookies := c3Sample.cookies,
          headers := some (dictOfList [("Content-Type", "text/html")]), raw_headers := none,
          request := some { url := some (pyStrOpt (some "http://example.com/x")),
                            method := some "GET",
                            headers := some (dictOfList [("Content-Type", "text/html")]),
                            real_url := some (pyStrOpt (some "http://example.com/x")),
                            cookies := some [] },
          elapsedUs := some 1500, isCached := true }) ∧
    pyVersionSerialize (.httpVersion (.intc 1) (.intc 1)) = "1/1" ∧
    parseHttpVersion "1/1" = .ok (.httpVersion (.strc "1") (.strc "1"))) :=
  ⟨rfl, response_roundtrip_amended c3Sample 1500 [("Content-Type", "text/html")]
    { url := some "http://example.com/x", method := some "GET",
      headers := some [("Accept", "application/json")],
      real_url := some "http://example.com/x", cookies := some [] }
    [] rfl rfl rfl rfl rfl⟩

/-- C4 counterexample: the sync session passes the synthesized 408 through
the _retrieve_response rebuild, which drops the attached error, so the
returned response has errors=None — and the async reason is "TimeoutError"
rather than "Request Timeout" — refuting the claimed behaviour at a
concrete timeout. -/
theorem timeout_claim_counterexample : ¬ c4Claimed := by
  intro h
  obtain ⟨r, hr, _, _, herr⟩ := h.1 "deadline exceeded" "http://example.com/x" "GET" none
  have hr2 : Except.ok (ε := PyExc)
      ({ version := none, status := some 408, ok := some false,
         reason := some "Request Timeout", url := some "http://example.com/x",
         method := some "GET", content := none, encoding := none,
         cookies := none, headers := none, history := none,
         request := some { url := some "http://example.com/x",
                           method := some "GET", headers := none },
         errors := none, elapsedUs := none, isCached := false } : SessResponse) =
      Except.ok r := hr
  injection hr2 with hr3
  rw [← hr3] at herr
  exact absurd herr (by decide)

/-- C4 amended: on a transport timeout without raise_errors, the sync
session returns a response with status 408, reason "Request Timeout" and
the request info attached, but no attached error — the cause set on the
synthesized response is dropped when _retrieve_response rebuilds it — and
the async session returns a response with status 408, reason
"TimeoutError" and the causing exception attached as the error with its
text as the content; with raise_errors set the exception propagates in
both sessions. -/
theorem timeout_mapping_amended (e url method : String)
    (hdrs : Option (List (String × String))) (hu : url ≠ "") (hm : method ≠ "") :
    syncRequestResult false (.timeoutExc e) url method hdrs =
      .ok { version := none, status := some 408, ok := some false,
            reason := some "Request Timeout", url := some url,
            method := some method, content := none, encoding := none,
            cookies := none, headers := none, history := none,
            request := some { url := some url, method := some method,
                              headers := hdrs },
            errors := none, elapsedUs := none, isCached := false } ∧
    syncRequestResult true (.timeoutExc e) url method hdrs =
      .error (.timeoutException e) ∧
    asyncRequestResult false (.timeoutExc e) =
      .ok { version := none, status := some 408, ok := none,
            reason := some "TimeoutError", url := none, method := none,
            content := some e, encoding := none, cookies := none,
            headers := none, history := none, request := none,
            errors := some e, elapsedUs := none, isCached := false } ∧
    asyncRequestResult true (.timeoutExc e) = .error (.timeoutError e) := by
  refine ⟨?_, rfl, rfl, rfl⟩
  simp [syncRequestResult, syncSynth408, syncRetrieveRebuild, pyTruthyStr,
    pyTruthyInt, pyTruthyListP, pyTruthyList, pyTruthyElapsed, hu, hm]

/-- C4 amended, witness at concrete inputs. -/
theorem timeout_mapping_amended_witness :
    ("http://example.com/x" : String) ≠ "" ∧ ("GET" : String) ≠ "" ∧
    (syncRequestResult false (.timeoutExc "deadline exceeded")
        "http://example.com/x" "GET" none =
      .ok { version := none, status := some 408, ok := some false,
            reason := some "Request Timeout", url := some "http://example.com/x",
            method := some "GET", content := none, encoding := none,
            cookies := none, headers := none, history := none,
            request := some { url := some "http://example.com/x",
                              method := some "GET", headers := none },
            errors := none, elapsedUs := none, isCached := false } ∧
     syncRequestResult true (.timeoutExc "deadline exceeded")
        "http://example.com/x" "GET" none =
      .error (.timeoutException "deadline exceeded") ∧
     asyncRequestResult false (.timeoutExc "deadline exceeded") =
      .ok { version := none, status := some 408, ok := none,
            reason := some "TimeoutError", url := none, method := none,
            content := some "deadline exceeded", encoding := none,
            cookies := none, headers := none, history := none, request := none,
            errors := some "deadline exceeded", elapsedUs := none,
            isCached := false } ∧
     asyncRequestResult true (.timeoutExc "deadline exceeded") =
      .error (.timeoutError "deadline exceeded")) :=
  ⟨by decide, by decide,
   timeout_mapping_amended "deadline exceeded" "http://example.com/x" "GET" none
     (by decide) (by decide)⟩

/-- C5: with a three-digit status, both cache decorators store the fresh
response exactly when caching is effectively enabled, the lookup missed,
and the status lies in 200..299. -/
theorem cache_store_iff_2xx (cacheArg : Option Bool) (sessionUseCache : Bool)
    (cached : Option ErrResponse) (fresh : ErrResponse) (s : Int)
    (hs : fresh.status = some s) (h1 : 100 ≤ s) (h2 : s ≤ 999) :
    ((syncCacheDecorator cacheArg sessionUseCache cached fresh).2 = true ↔
      (cacheArg.getD sessionUseCache = true ∧ cached = none ∧ 200 ≤ s ∧ s ≤ 299)) ∧
    ((asyncCacheDecorator cacheArg sessionUseCache cached fresh).2 = true ↔
      (cacheArg.getD sessionUseCache = true ∧ cached = none ∧ 200 ≤ s ∧ s ≤ 299)) := by
  have key : statusStartsWith2 (some s) = decide (200 ≤ s ∧ s ≤ 299) := by
    obtain ⟨k, hk1, hk2⟩ : ∃ k : Nat, k < 900 ∧ s = 100 + (k : Int) :=
      ⟨(s - 100).toNat, by omega, by omega⟩
    subst hk2
    have hmem : k ∈ List.range 900 := List.mem_range.mpr hk1
    have hpt := List.all_eq_true.mp statusStartsWith2_aux k hmem
    simpa using hpt
  constructor <;>
  · by_cases hc : cacheArg.getD sessionUseCache = true <;> cases cached <;>
      simp [syncCacheDecorator, asyncCacheDecorator, hc, hs, key]

/-- C5 witness: 204 with caching on and a cache miss is stored. -/
theorem cache_store_iff_2xx_witness :
    ({ status := some 204, ok := some true, reason := none, url := none,
       method := none, content := none, errors := none,
       hasRequestInfo := false } : ErrResponse).status = some 204 ∧
    (100 : Int) ≤ 204 ∧ (204 : Int) ≤ 999 ∧
    (((syncCacheDecorator (some true) false none
        { status := some 204, ok := some true, reason := none, url := none,
          method := none, content := none, errors := none,
          hasRequestInfo := false }).2 = true ↔
      ((some true).getD false = true ∧ (none : Option ErrResponse) = none ∧
        (200 : Int) ≤ 204 ∧ (204 : Int) ≤ 299)) ∧
     ((asyncCacheDecorator (some true) false none
        { status := some 204, ok := some true, reason := none, url := none,
          method := none, content := none, errors := none,
          hasRequestInfo := false }).2 = true ↔
      ((some true).getD false = true ∧ (none : Option ErrResponse) = none ∧
        (200 : Int) ≤ 204 ∧ (204 : Int) ≤ 299))) :=
  ⟨rfl, by decide, by decide,
    cache_store_iff_2xx (some true) false none
      { status := some 204, ok := some true, reason := none, url := none,
        method := none, content := none, errors := none,
        hasRequestInfo := false } 204 rfl (by decide) (by decide)⟩

/-- C6 counterexample: with both keying flags off, the source joins the
full URL into the key while the claimed derivation omits the URL part. -/
theorem ratelimit_key_global_counterexample :
    rlParseKey ⟨"Session", false, false⟩ (some "GET") none ⟨"http", "example.com", "/a"⟩ =
      "Session:GET:http://example.com/a:ratelimit" ∧
    rlParseKeyClaimed ⟨"Session", false, false⟩ (some "GET") none ⟨"http", "example.com", "/a"⟩ =
      "Session:GET:ratelimit" ∧
    rlParseKey ⟨"Session", false, false⟩ (some "GET") none ⟨"http", "example.com", "/a"⟩ ≠
      rlParseKeyClaimed ⟨"Session", false, false⟩ (some "GET") none ⟨"http", "example.com", "/a"⟩ := by
  exact ⟨rfl, rfl, by decide⟩

/-- C6 amended: the derived key is the colon-join of the non-None
components ending in "ratelimit", the URL part being scheme+host under
per-host keying — which takes precedence — scheme+host+path under
per-endpoint keying, and the full URL under global keying. -/
theorem ratelimit_key_amended (o : RlKeyOptions) (method : Option String)
    (keys : Option (List String)) (u : UrlL) :
    rlParseKey o method keys u = rlParseKeyAmended o method keys u ∧
    (o.perHost = true → rlParseUrl o u = u.scheme ++ "://" ++ u.host) ∧
    (∃ front, rlParseKey o method keys u = pyJoin ":" (front ++ ["ratelimit"])) := by
  refine ⟨?_, ?_, ?_⟩
  · simp [rlParseKey, rlParseKeyAmended, rlParseUrl, urlRender]
  · intro h; simp [rlParseUrl, h]
  · refine ⟨(([some o.key, method] ++ (keys.getD []).map some) ++
      [some (rlParseUrl o u)]).filterMap id, ?_⟩
    cases method <;>
      simp [rlParseKey, List.filterMap_append, List.filterMap_cons]

/-- C7: a callback that raises does not make the runner fail — the
exception is caught, appended to the results attached to the response when
return_callbacks is on, and the progress tick still fires once. -/
theorem callback_exception_isolated (cfg : CbConfig) (r : CbResponse)
    (l : List CallbackItem) (f : CbResponse → CbRet) (e : String) (isCache : Bool)
    (hret : cfg.returnCallbacks = true)
    (hrun : r.errors = none ∨ cfg.runCallbacksOnError = true)
    (hmem : CallbackItem.clb f ∈ l)
    (hexc : f { r with isCached := isCache } = .exc e) :
    ∃ rets, runCallbacks cfg r (some l) true isCache =
        ({ errors := r.errors, callbacksField := some rets,
           isCached := isCache, body := r.body }, 1) ∧
      CbRet.exc e ∈ rets := by
  refine ⟨runCbLoop l { r with isCached := isCache }, ?_, ?_⟩
  · rcases hrun with h | h <;> simp [runCallbacks, h, hret]
  · rw [runCbLoop_eq]
    exact List.mem_filterMap.mpr ⟨CallbackItem.clb f, hmem, by simp [hexc]⟩

/-- C7 witness: one raising callback on a clean response. -/
theorem callback_exception_isolated_witness :
    ({ runCallbacksOnError := false, returnCallbacks := true } : CbConfig).returnCallbacks = true ∧
    ∃ rets, runCallbacks { runCallbacksOnError := false, returnCallbacks := true }
        { errors := none, callbacksField := none, isCached := false, body := "b" }
        (some [CallbackItem.clb (fun _ => CbRet.exc "boom")]) true false =
        ({ errors := none, callbacksField := some rets, isCached := false, body := "b" }, 1) ∧
      CbRet.exc "boom" ∈ rets :=
  ⟨rfl, callback_exception_isolated
    { runCallbacksOnError := false, returnCallbacks := true }
    { errors := none, callbacksField := none, isCached := false, body := "b" }
    [CallbackItem.clb (fun _ => CbRet.exc "boom")] (fun _ => CbRet.exc "boom") "boom" false
    rfl (Or.inl rfl) (List.mem_singleton.mpr rfl) rfl⟩

/-- C8: six successive acquisitions from one thread with max_connections 5
all succeed and are owned by the calling thread, because the guard reads
SQLitePool.n_connections, which stays 0, while the registry counter the
code actually bumps reaches 6 — exceeding the configured cap. -/
theorem sqlite_pool_cap_violation_eval :
    (getConnectionN 6 0 (initSqlitePoolState 5)).1 =
      [some { id := 0, threadId := 0 }, some { id := 1, threadId := 0 },
       some { id := 2, threadId := 0 }, some { id := 3, threadId := 0 },
       some { id := 4, threadId := 0 }, some { id := 5, threadId := 0 }] ∧
    (getConnectionN 6 0 (initSqlitePoolState 5)).2.registryCounters 0 = 6 ∧
    (getConnectionN 6 0 (initSqlitePoolState 5)).2.poolCounters 0 = 0 ∧
    5 < (getConnectionN 6 0 (initSqlitePoolState 5)).2.registryCounters 0 ∧
    ((getConnectionN 6 0 (initSqlitePoolState 5)).1.filterMap id).all
      (fun c => c.threadId = 0) = true := by
  exact ⟨rfl, rfl, rfl, by decide, rfl⟩

/-- C9: port range validation and the rejection branches behave as
claimed, but a fully consistent configuration — maxmemory set to "100mb"
with policy allkeys-lru — is also rejected, because the assertion looks
maxmemory up at the top level of the mapping where it is never stored. -/
theorem redis_options_validation_eval :
    validatePort (some (.pint 70000)) =
      .error (.valueError "Port must be an integer or string between 0 and 65535.") ∧
    validatePort (some (.pint 6379)) = .ok () ∧
    validatePort none = .ok () ∧
    redisServerConfig { redisValidCombo with maxmemory := .mint 0 } =
      .error (.assertionError "maxmemory must be set if maxmemory-policy is not noeviction") ∧
    redisServerConfig { redisValidCombo with maxmemoryPolicy := "NOEVICTION", maxmemory := .mint 0 } =
      .error (.assertionError "maxmemory-policy must be one of the allowed eviction policies") ∧
    (∃ m, redisServerConfig { redisValidCombo with maxmemoryPolicy := "noeviction", maxmemory := .mint 0 } = .ok m) ∧
    redisServerConfig redisValidCombo =
      .error (.assertionError "maxmemory must be set if maxmemory-policy is not noeviction") := by
  exact ⟨rfl, rfl, rfl, rfl, rfl, ⟨_, rfl⟩, rfl⟩
